import Mathlib

/-!
Verification development for the budgeauto transaction-reconciliation
pipeline.  The definitions below are shallow embeddings of the Python
source (src/models.py, src/categorizer.py, src/main.py,
src/pdf_parser.py, src/sheets_handler.py): pure functions become Lean
functions, in-place mutation becomes explicit state passing, Python
floats are modelled as rationals (only sign/abs/division semantics are
used), and fallible operations return Option.
-/

/-- Character-level uppercase, as Python str.upper on ASCII input
(Category names and values are ASCII). -/
def pyUpperChar (c : Char) : Char := c.toUpper

/-- Character-level lowercase, as Python str.lower on ASCII input. -/
def pyLowerChar (c : Char) : Char := c.toLower

/-- Python str.strip: drop leading and trailing whitespace. -/
def pyStrip (cs : List Char) : List Char :=
  ((cs.dropWhile Char.isWhitespace).reverse.dropWhile Char.isWhitespace).reverse

/-- Python s.upper().strip() on the character list of s. -/
def upperStrip (s : String) : List Char :=
  pyStrip (s.data.map pyUpperChar)

/-- Python s.upper().strip().replace(" ", "_"). -/
def upperStripUnderscore (s : String) : List Char :=
  (upperStrip s).map (fun c => if c = ' ' then '_' else c)

/-- Closed category vocabulary from models.py (class Category). -/
inductive Category where
  | ACHU | AISHU | AMMA | BANK | BODY | BUDGET | CAR | CHRISTMAS | COOK
  | DRESS | EDUCATION | ELECTRICITY | ENTERTAINMENT | FAITH | FAMILY
  | FOOD | FUEL | GIFT | GROCERY | GYM | HOUSE | HOUSEHOLD | INCOME_TAX
  | INSURANCE | INTERNET | INTERNATIONAL_TRIP | INVESTMENT | KITCHEN
  | MAID | MEDICAL | PHONE | PHILANTHROPY | PROCESSED_TRANSACTIONS
  | PROFESSION | RENT | SALE | SALON | SCOOTER | COURIER | PAYMENT
  | PETROL | SHOPPING | SOFTWARE | SUBSCRIPTION | TAX | TRANSPORTATION
  | TRAVEL | UNCATEGORIZED | VALUE_ADD | WATER | WEDDING | INCOME
  | SALARY | REFUND | CASHBACK | INTEREST | TRANSFER
  deriving DecidableEq

/-- Enum member name (the Python identifier), used by the first matching
loop of Category.from_string. -/
def Category.memberName : Category → String
  | .ACHU => "ACHU" | .AISHU => "AISHU" | .AMMA => "AMMA" | .BANK => "BANK"
  | .BODY => "BODY" | .BUDGET => "BUDGET" | .CAR => "CAR"
  | .CHRISTMAS => "CHRISTMAS" | .COOK => "COOK" | .DRESS => "DRESS"
  | .EDUCATION => "EDUCATION" | .ELECTRICITY => "ELECTRICITY"
  | .ENTERTAINMENT => "ENTERTAINMENT" | .FAITH => "FAITH"
  | .FAMILY => "FAMILY" | .FOOD => "FOOD" | .FUEL => "FUEL"
  | .GIFT => "GIFT" | .GROCERY => "GROCERY" | .GYM => "GYM"
  | .HOUSE => "HOUSE" | .HOUSEHOLD => "HOUSEHOLD"
  | .INCOME_TAX => "INCOME_TAX" | .INSURANCE => "INSURANCE"
  | .INTERNET => "INTERNET" | .INTERNATIONAL_TRIP => "INTERNATIONAL_TRIP"
  | .INVESTMENT => "INVESTMENT" | .KITCHEN => "KITCHEN" | .MAID => "MAID"
  | .MEDICAL => "MEDICAL" | .PHONE => "PHONE"
  | .PHILANTHROPY => "PHILANTHROPY"
  | .PROCESSED_TRANSACTIONS => "PROCESSED_TRANSACTIONS"
  | .PROFESSION => "PROFESSION" | .RENT => "RENT" | .SALE => "SALE"
  | .SALON => "SALON" | .SCOOTER => "SCOOTER" | .COURIER => "COURIER"
  | .PAYMENT => "PAYMENT" | .PETROL => "PETROL" | .SHOPPING => "SHOPPING"
  | .SOFTWARE => "SOFTWARE" | .SUBSCRIPTION => "SUBSCRIPTION"
  | .TAX => "TAX" | .TRANSPORTATION => "TRANSPORTATION"
  | .TRAVEL => "TRAVEL" | .UNCATEGORIZED => "UNCATEGORIZED"
  | .VALUE_ADD => "VALUE_ADD" | .WATER => "WATER" | .WEDDING => "WEDDING"
  | .INCOME => "INCOME" | .SALARY => "SALARY" | .REFUND => "REFUND"
  | .CASHBACK => "CASHBACK" | .INTEREST => "INTEREST"
  | .TRANSFER => "TRANSFER"

/-- Enum member value (the display string), models.py. -/
def Category.val : Category → String
  | .ACHU => "Achu" | .AISHU => "Aishu" | .AMMA => "Amma" | .BANK => "Bank"
  | .BODY => "Body" | .BUDGET => "Budget" | .CAR => "Car"
  | .CHRISTMAS => "Christmas" | .COOK => "Cook" | .DRESS => "Dress"
  | .EDUCATION => "Education" | .ELECTRICITY => "Electricity"
  | .ENTERTAINMENT => "Entertainment" | .FAITH => "Faith"
  | .FAMILY => "Family" | .FOOD => "Food" | .FUEL => "Fuel"
  | .GIFT => "Gift" | .GROCERY => "Grocery" | .GYM => "Gym"
  | .HOUSE => "House" | .HOUSEHOLD => "Household"
  | .INCOME_TAX => "Income Tax" | .INSURANCE => "Insurance"
  | .INTERNET => "Internet" | .INTERNATIONAL_TRIP => "International Trip"
  | .INVESTMENT => "Investment" | .KITCHEN => "Kitchen" | .MAID => "Maid"
  | .MEDICAL => "Medical" | .PHONE => "Phone"
  | .PHILANTHROPY => "Philanthropy"
  | .PROCESSED_TRANSACTIONS => "Processed Transactions"
  | .PROFESSION => "Profession" | .RENT => "Rent" | .SALE => "Sale"
  | .SALON => "Salon" | .SCOOTER => "Scooter" | .COURIER => "Courier"
  | .PAYMENT => "Payment" | .PETROL => "Petrol" | .SHOPPING => "Shopping"
  | .SOFTWARE => "Software" | .SUBSCRIPTION => "Subscription"
  | .TAX => "Tax" | .TRANSPORTATION => "Transportation"
  | .TRAVEL => "Travel" | .UNCATEGORIZED => "Uncategorized"
  | .VALUE_ADD => "Value Add" | .WATER => "Water" | .WEDDING => "Wedding"
  | .INCOME => "Income" | .SALARY => "Salary" | .REFUND => "Refund"
  | .CASHBACK => "Cashback" | .INTEREST => "Interest"
  | .TRANSFER => "Transfer"

/-- All members in definition order: the iteration order of
cls.__members__ and of cls in models.py. -/
def Category.members : List Category :=
  [.ACHU, .AISHU, .AMMA, .BANK, .BODY, .BUDGET, .CAR, .CHRISTMAS, .COOK,
   .DRESS, .EDUCATION, .ELECTRICITY, .ENTERTAINMENT, .FAITH, .FAMILY,
   .FOOD, .FUEL, .GIFT, .GROCERY, .GYM, .HOUSE, .HOUSEHOLD, .INCOME_TAX,
   .INSURANCE, .INTERNET, .INTERNATIONAL_TRIP, .INVESTMENT, .KITCHEN,
   .MAID, .MEDICAL, .PHONE, .PHILANTHROPY, .PROCESSED_TRANSACTIONS,
   .PROFESSION, .RENT, .SALE, .SALON, .SCOOTER, .COURIER, .PAYMENT,
   .PETROL, .SHOPPING, .SOFTWARE, .SUBSCRIPTION, .TAX, .TRANSPORTATION,
   .TRAVEL, .UNCATEGORIZED, .VALUE_ADD, .WATER, .WEDDING, .INCOME,
   .SALARY, .REFUND, .CASHBACK, .INTEREST, .TRANSFER]

/-- Category.from_string (models.py lines 72-92): normalize the input
(upper, strip, spaces to underscores), canonicalize known typos and
synonyms (ENTERTAINTMENT, BODY, HOUSE), match member names, then member
values (against the upper-stripped original input), else fall back to
UNCATEGORIZED. -/
def Category.fromString (value : String) : Category :=
  let sv0 := upperStripUnderscore value
  let sv1 := if sv0 = "ENTERTAINTMENT".data then "ENTERTAINMENT".data else sv0
  let sv2 := if sv1 = "BODY".data then "GYM".data else sv1
  let sv3 := if sv2 = "HOUSE".data then "HOUSEHOLD".data else sv2
  match Category.members.find? (fun c => c.memberName.data = sv3) with
  | some c => c
  | none =>
    match Category.members.find?
        (fun c => (c.val.data.map pyUpperChar) = upperStrip value) with
    | some c => c
    | none => Category.UNCATEGORIZED

/-- Default fallback category (models.py DEFAULT_CATEGORY_ENUM). -/
def DEFAULT_CATEGORY_ENUM : Category := Category.UNCATEGORIZED

/-- transaction_type: Literal of credit or debit (models.py). -/
inductive TType where
  | credit | debit
  deriving DecidableEq

/-- The Transaction record of models.py.  Python floats are modelled as
rationals; optional fields as Option.  Note the model default for
is_split is 1 (Field(1)), not None. -/
structure Transaction where
  date : Option String
  description : String
  amount : Option ℚ
  source_account : Option String
  short_description : Option String
  is_expense : Option Int
  is_split : Option Int
  category : Option Category
  transaction_type : TType
  deriving DecidableEq

/-- Construction of a fresh Transaction with only the extraction-stage
fields given, all other fields at their models.py defaults
(short_description or None, is_expense or None, is_split or 1,
category or None, source_account or None). -/
def newTransaction (date : Option String) (description : String)
    (amount : Option ℚ) (ttype : TType) : Transaction :=
  { date := date, description := description, amount := amount,
    source_account := none, short_description := none,
    is_expense := none, is_split := some 1, category := none,
    transaction_type := ttype }

/-- Sequence a is an initial segment of sequence b. -/
def startsWithSeq : List Char → List Char → Bool
  | [], _ => true
  | _ :: _, [] => false
  | a :: as, b :: bs => a = b && startsWithSeq as bs

/-- Sequence needle occurs contiguously inside hay (Python in operator
on strings). -/
def containsSeq (needle : List Char) : List Char → Bool
  | [] => startsWithSeq needle []
  | c :: rest => startsWithSeq needle (c :: rest) || containsSeq needle rest

/-- Lowercased description contains the secondary-party token: Python
test quote achu quote in tx.description.lower() (pdf_parser.py 262). -/
def containsAchu (description : String) : Bool :=
  containsSeq "achu".data (description.data.map pyLowerChar)

/-- Per-transaction extraction-stage assignment (pdf_parser.py 259-264):
set source_account, and set is_split to 2 when the lowercased
description contains the token achu; all other enrichment fields are
left untouched. -/
def extractionAssign (sourceAccount : String) (t : Transaction) :
    Transaction :=
  let t1 := { t with source_account := some sourceAccount }
  if containsAchu t.description then { t1 with is_split := some 2 } else t1

/-! Enrichment stage (src/categorizer.py process_transactions_ai) and
the checkpoint store (src/main.py). -/

/-- One item of the classifier batch response (categorizer.py
AIProcessedTransaction).  original_index is a Python int, so it may be
negative. -/
structure AIResult where
  original_index : Int
  category_str : String
  is_expense : Int
  is_split : Int
  deriving DecidableEq

/-- Field update performed for one matched result (categorizer.py
211-215): category via Category.from_string, is_expense and is_split
copied; no other field is touched. -/
def updateTx (t : Transaction) (r : AIResult) : Transaction :=
  { t with category := some (Category.fromString r.category_str),
           is_expense := some r.is_expense,
           is_split := some r.is_split }

/-- Processing of one classifier result (categorizer.py 206-224): an
original_index inside the bounds of the batch overwrites exactly that
transaction; an out-of-range index is logged and skipped, leaving the
batch unchanged. -/
def applyOne (txs : List Transaction) (r : AIResult) : List Transaction :=
  if 0 ≤ r.original_index then
    match txs[r.original_index.toNat]? with
    | some t => txs.set r.original_index.toNat (updateTx t r)
    | none => txs
  else txs

/-- Processing of a whole successful classifier response, in response
order (categorizer.py result loop). -/
def applyResults (txs : List Transaction) (results : List AIResult) :
    List Transaction :=
  results.foldl applyOne txs

/-- Caller-side defaulting pass (main.py 491-494): any transaction still
lacking a category receives the fallback category; flags are not
touched. -/
def defaultNullCategories (txs : List Transaction) : List Transaction :=
  txs.map (fun t =>
    if t.category = none then { t with category := some DEFAULT_CATEGORY_ENUM }
    else t)

/-- Successful-response enrichment pipeline as main.py runs it: merge
classifier results by index, then default still-null categories. -/
def enrichMatched (txs : List Transaction) (results : List AIResult) :
    List Transaction :=
  defaultNullCategories (applyResults txs results)

/-- The three total-failure causes of an enrichment batch
(categorizer.py): classifier not configured (no agent), prompt failed to
load, classifier exception or malformed/invalid response. -/
inductive FailCause where
  | noAgent | promptError | exceptionOrMalformed
  deriving DecidableEq

/-- Per-transaction effect of a fully-failed batch.  noAgent
(categorizer.py 121-128) and promptError (130-137) keep any already-set
category/is_expense/is_split and only default unset fields (the Python
noAgent default for is_split is False, numerically 0); the
exception/malformed path (251-264) overwrites unconditionally with the
fallback category, is_expense 1 and is_split 0. -/
def applyFailure : FailCause → Transaction → Transaction
  | .noAgent, t =>
      { t with
        category := match t.category with
          | some c => some c
          | none => some DEFAULT_CATEGORY_ENUM,
        is_expense := match t.is_expense with
          | some e => some e
          | none => some 1,
        is_split := match t.is_split with
          | some s => some s
          | none => some 0 }
  | .promptError, t =>
      { t with
        category := match t.category with
          | some c => some c
          | none => some DEFAULT_CATEGORY_ENUM,
        is_expense := match t.is_expense with
          | some e => some e
          | none => some 1,
        is_split := match t.is_split with
          | some s => some s
          | none => some 0 }
  | .exceptionOrMalformed, t =>
      { t with category := some DEFAULT_CATEGORY_ENUM,
               is_expense := some 1,
               is_split := some 0 }

/-- Whole-batch effect of a fully-failed enrichment batch. -/
def applyFailureBatch (cause : FailCause) (txs : List Transaction) :
    List Transaction :=
  txs.map (applyFailure cause)

/-- Serialized form of a Transaction in a checkpoint file: JSON object
with the category field rendered as its enum string value
(model_dump with mode json, main.py 504). -/
structure SavedTx where
  date : Option String
  description : String
  amount : Option ℚ
  source_account : Option String
  short_description : Option String
  is_expense : Option Int
  is_split : Option Int
  category : Option String
  transaction_type : TType
  deriving DecidableEq

/-- Serialization of one categorized transaction for the
post-categorization checkpoint (main.py 501-506). -/
def saveTx (t : Transaction) : SavedTx :=
  { date := t.date, description := t.description, amount := t.amount,
    source_account := t.source_account,
    short_description := t.short_description,
    is_expense := t.is_expense, is_split := t.is_split,
    category := t.category.map Category.val,
    transaction_type := t.transaction_type }

/-- Deserialization of one item of the post-categorization checkpoint
(main.py 334-351): a string category is resolved with
Category.from_string; the date string is passed through unparsed; other
fields load as stored. -/
def loadCategorizedTx (s : SavedTx) : Transaction :=
  { date := s.date, description := s.description, amount := s.amount,
    source_account := s.source_account,
    short_description := s.short_description,
    is_expense := s.is_expense, is_split := s.is_split,
    category := s.category.map Category.fromString,
    transaction_type := s.transaction_type }

/-- Observable state of one checkpoint file at startup: missing,
present but unreadable (IO error or JSON decode error), or readable
with a parsed list of items. -/
inductive FileState where
  | absent
  | unreadable
  | content (items : List SavedTx)

/-- Which work the run performs after the checkpoint inspection, and
the records handed straight to sheet writing when the categorized
checkpoint is used. -/
structure RunPlan where
  runExtraction : Bool
  runEnrichment : Bool
  resumedRecords : Option (List Transaction)
  deriving DecidableEq

/-- Resolution of the categorized checkpoint (main.py 326-363): a
readable, non-empty item list resumes with the deserialized records;
an absent, unreadable or empty file falls through. -/
def resumeFromCategorized : FileState → Option (List Transaction)
  | .content items =>
      if items.isEmpty then none else some (items.map loadCategorizedTx)
  | _ => none

/-- Resolution of the extraction (processed) checkpoint (main.py
366-408), same acceptance rule. -/
def resumeFromProcessed : FileState → Option (List SavedTx)
  | .content items => if items.isEmpty then none else some items
  | _ => none

/-- The two-stage resume decision of main (main.py 318-471): the
categorized checkpoint is inspected first and, when usable, skips both
the extraction stage (run only when resume_stage is None) and the
enrichment stage (run only when resume_stage is None or processed);
otherwise the processed checkpoint can skip extraction alone; otherwise
the run is fresh. -/
def resolveResume (catFile procFile : FileState) : RunPlan :=
  match resumeFromCategorized catFile with
  | some txs =>
      { runExtraction := false, runEnrichment := false,
        resumedRecords := some txs }
  | none =>
      match resumeFromProcessed procFile with
      | some _ =>
          { runExtraction := false, runEnrichment := true,
            resumedRecords := none }
      | none =>
          { runExtraction := true, runEnrichment := true,
            resumedRecords := none }

/-- Signed amount written to an account sheet (sheets_handler.py
327-332): credit rows become minus the absolute value, debit rows the
absolute value, a missing amount stays missing. -/
def signedAmount (amount : Option ℚ) (ttype : TType) : Option ℚ :=
  match amount with
  | none => none
  | some a =>
      match ttype with
      | .credit => some (-|a|)
      | .debit => some |a|

/-! Multi-format date parsing.  Both src/main.py
(filter_transactions_by_date) and src/sheets_handler.py
(parse_date_flexible) call datetime.datetime.strptime over an ordered
list of format strings, stopping at the first that parses.  The model
below reproduces CPython strptime for the directives those formats use:
each numeric directive matches the regex alternatives of _strptime in
order (two-digit alternatives before the one-digit one), the month
abbreviation is matched case-insensitively, the whole input must be
consumed, and the resulting calendar date must be constructible
(datetime validates the day against the month length and the year
against 1..9999, and rejects leap seconds).  Whitespace in a format is
modelled as a single literal space. -/

/-- A calendar date (the datetime.date triple). -/
structure Date where
  year : Nat
  month : Nat
  day : Nat
  deriving DecidableEq

/-- Lexicographic comparison of dates, as datetime.date ordering. -/
def dateLe (a b : Date) : Bool :=
  a.year < b.year ||
    (a.year = b.year &&
      (a.month < b.month || (a.month = b.month && a.day ≤ b.day)))

/-- Gregorian leap-year test. -/
def isLeap (y : Nat) : Bool :=
  y % 4 = 0 && (y % 100 ≠ 0 || y % 400 = 0)

/-- Number of days of a month, as datetime uses to validate a day. -/
def daysInMonth (y m : Nat) : Nat :=
  if m = 2 then (if isLeap y then 29 else 28)
  else if m = 4 || m = 6 || m = 9 || m = 11 then 30
  else 31

/-- Format directives appearing in the formats the source uses. -/
inductive Dir where
  | lit (c : Char)
  | dD   -- percent d
  | dM   -- percent m
  | dY4  -- percent Y
  | dY2  -- percent y
  | dMon -- percent b
  | dH   -- percent H
  | dMin -- percent M
  | dS   -- percent S

/-- Fields collected while matching one format. -/
structure DateParts where
  year : Nat := 1900
  month : Nat := 1
  day : Nat := 1
  sec : Nat := 0

/-- Numeric value of a decimal digit character. -/
def digitVal (c : Char) : Nat := c.toNat - 48

/-- Lowercase three-letter month abbreviations, in month order. -/
def monthAbbrevs : List (List Char) :=
  ["jan".data, "feb".data, "mar".data, "apr".data, "may".data,
   "jun".data, "jul".data, "aug".data, "sep".data, "oct".data,
   "nov".data, "dec".data]

/-- Index search for the month abbreviation. -/
def monthOfAbbrev (cs : List Char) : Option Nat :=
  (monthAbbrevs.indexOf? cs).map (· + 1)

/-- Candidate matches for one directive at the head of the input, in
the alternative order of the _strptime regex (longer matches first).
Each candidate is the captured value with the remaining input. -/
def matchDir : Dir → List Char → List (Nat × List Char)
  | .lit c, x :: rest => if x = c then [(0, rest)] else []
  | .lit _, [] => []
  | .dD, a :: b :: rest =>
      let two :=
        if a.isDigit && b.isDigit &&
            1 ≤ digitVal a * 10 + digitVal b &&
            digitVal a * 10 + digitVal b ≤ 31 then
          [(digitVal a * 10 + digitVal b, rest)]
        else []
      let one :=
        if a.isDigit && 1 ≤ digitVal a then [(digitVal a, b :: rest)] else []
      two ++ one
  | .dD, [a] => if a.isDigit && 1 ≤ digitVal a then [(digitVal a, [])] else []
  | .dD, [] => []
  | .dM, a :: b :: rest =>
      let two :=
        if a.isDigit && b.isDigit &&
            1 ≤ digitVal a * 10 + digitVal b &&
            digitVal a * 10 + digitVal b ≤ 12 then
          [(digitVal a * 10 + digitVal b, rest)]
        else []
      let one :=
        if a.isDigit && 1 ≤ digitVal a && digitVal a ≤ 9 then
          [(digitVal a, b :: rest)]
        else []
      two ++ one
  | .dM, [a] => if a.isDigit && 1 ≤ digitVal a then [(digitVal a, [])] else []
  | .dM, [] => []
  | .dY4, a :: b :: c :: d :: rest =>
      if a.isDigit && b.isDigit && c.isDigit && d.isDigit then
        [(digitVal a * 1000 + digitVal b * 100 + digitVal c * 10 +
            digitVal d, rest)]
      else []
  | .dY4, _ => []
  | .dY2, a :: b :: rest =>
      if a.isDigit && b.isDigit then
        let v := digitVal a * 10 + digitVal b
        [(if v ≤ 68 then 2000 + v else 1900 + v, rest)]
      else []
  | .dY2, _ => []
  | .dMon, a :: b :: c :: rest =>
      match monthOfAbbrev [pyLowerChar a, pyLowerChar b, pyLowerChar c] with
      | some m => [(m, rest)]
      | none => []
  | .dMon, _ => []
  | .dH, a :: b :: rest =>
      let two :=
        if a.isDigit && b.isDigit && digitVal a * 10 + digitVal b ≤ 23 then
          [(digitVal a * 10 + digitVal b, rest)]
        else []
      let one := if a.isDigit then [(digitVal a, b :: rest)] else []
      two ++ one
  | .dH, [a] => if a.isDigit then [(digitVal a, [])] else []
  | .dH, [] => []
  | .dMin, a :: b :: rest =>
      let two :=
        if a.isDigit && b.isDigit && digitVal a * 10 + digitVal b ≤ 59 then
          [(digitVal a * 10 + digitVal b, rest)]
        else []
      let one := if a.isDigit then [(digitVal a, b :: rest)] else []
      two ++ one
  | .dMin, [a] => if a.isDigit then [(digitVal a, [])] else []
  | .dMin, [] => []
  | .dS, a :: b :: rest =>
      let two :=
        if a.isDigit && b.isDigit && digitVal a * 10 + digitVal b ≤ 61 then
          [(digitVal a * 10 + digitVal b, rest)]
        else []
      let one := if a.isDigit then [(digitVal a, b :: rest)] else []
      two ++ one
  | .dS, [a] => if a.isDigit then [(digitVal a, [])] else []
  | .dS, [] => []

/-- Field update for one matched directive. -/
def applyDir : Dir → Nat → DateParts → DateParts
  | .dD, v, p => { p with day := v }
  | .dM, v, p => { p with month := v }
  | .dMon, v, p => { p with month := v }
  | .dY4, v, p => { p with year := v }
  | .dY2, v, p => { p with year := v }
  | .dS, v, p => { p with sec := v }
  | _, _, p => p

/-- Regex-style matching of a directive list against the input with
backtracking over the candidate alternatives; the whole input must be
consumed (strptime raises on unconverted trailing data). -/
def runFmt (ds : List Dir) (cs : List Char) (p : DateParts) :
    Option DateParts :=
  match ds with
  | [] => if cs.isEmpty then some p else none
  | d :: rest =>
      match matchDir d cs with
      | [] => none
      | [(v, cs1)] => runFmt rest cs1 (applyDir d v p)
      | (v1, cs1) :: (v2, cs2) :: _ =>
          match runFmt rest cs1 (applyDir d v1 p) with
          | some r => some r
          | none => runFmt rest cs2 (applyDir d v2 p)

/-- Validation performed by the datetime constructor after a regex
match: year 1..9999, day within the month, no leap second. -/
def validParts (p : DateParts) : Bool :=
  1 ≤ p.year && p.year ≤ 9999 && 1 ≤ p.month && p.month ≤ 12 &&
    1 ≤ p.day && p.day ≤ daysInMonth p.year p.month && p.sec ≤ 59

/-- strptime with one format followed by extraction of the date part,
as both call sites use it. -/
def strptimeDate (ds : List Dir) (s : String) : Option Date :=
  match runFmt ds s.data {} with
  | some p =>
      if validParts p then some { year := p.year, month := p.month,
                                  day := p.day }
      else none
  | none => none

/-- Format percent Y dash percent m dash percent d. -/
def fmtYmd : List Dir := [.dY4, .lit '-', .dM, .lit '-', .dD]

/-- Format percent d slash percent m slash percent Y. -/
def fmtDmy : List Dir := [.dD, .lit '/', .dM, .lit '/', .dY4]

/-- Format percent d dash percent b dash percent Y. -/
def fmtDbY : List Dir := [.dD, .lit '-', .dMon, .lit '-', .dY4]

/-- Format percent b space percent d comma space percent Y. -/
def fmtBdY : List Dir :=
  [.dMon, .lit ' ', .dD, .lit ',', .lit ' ', .dY4]

/-- Format percent d slash percent m slash percent Y space percent H
colon percent M colon percent S. -/
def fmtDmyHms : List Dir :=
  [.dD, .lit '/', .dM, .lit '/', .dY4, .lit ' ',
   .dH, .lit ':', .dMin, .lit ':', .dS]

/-- Format percent d dash percent b dash percent y. -/
def fmtDby : List Dir := [.dD, .lit '-', .dMon, .lit '-', .dY2]

/-- The ordered format list of filter_transactions_by_date
(main.py 223-226). -/
def filterFormats : List (List Dir) :=
  [fmtYmd, fmtDmy, fmtDbY, fmtBdY, fmtDmyHms, fmtDby]

/-- The ordered format list of parse_date_flexible
(sheets_handler.py 40). -/
def sheetFormats : List (List Dir) :=
  [fmtDmy, fmtDby, fmtDmyHms]

/-- First format of an ordered list that parses the string. -/
def parseWithFormats (fmts : List (List Dir)) (s : String) : Option Date :=
  fmts.findSome? (fun f => strptimeDate f s)

/-- Date parsing used inside the date-window filter. -/
def parseFilterDate (s : String) : Option Date :=
  parseWithFormats filterFormats s

/-- Two-digit zero-padded decimal rendering. -/
def twoDigits (n : Nat) : List Char :=
  [Char.ofNat (48 + n / 10 % 10), Char.ofNat (48 + n % 10)]

/-- strftime with format percent d slash percent m slash percent Y. -/
def formatDdMmYyyy (d : Date) : String :=
  String.mk (twoDigits d.day ++ '/' :: twoDigits d.month ++ '/' ::
    [Char.ofNat (48 + d.year / 1000 % 10), Char.ofNat (48 + d.year / 100 % 10),
     Char.ofNat (48 + d.year / 10 % 10), Char.ofNat (48 + d.year % 10)])

/-- parse_date_flexible (sheets_handler.py 30-59): a missing or empty
input yields the empty string; otherwise the three formats are tried in
order and a success is re-rendered as DD slash MM slash YYYY; a string
no format parses is written as the empty string. -/
def parse_date_flexible (dateInput : Option String) : String :=
  match dateInput with
  | none => ""
  | some s =>
      if s = "" then ""
      else
        match parseWithFormats sheetFormats s with
        | some d => formatDdMmYyyy d
        | none => ""

/-- The first day of the month after the given one
(dateutil relativedelta months plus one, applied to the first day). -/
def firstOfNextMonth (y m : Nat) : Date :=
  if m = 12 then { year := y + 1, month := 1, day := 1 }
  else { year := y, month := m + 1, day := 1 }

/-- Start of the filter window: the first day of the target month
(main.py 195). -/
def filterStart (y m : Nat) : Date := { year := y, month := m, day := 1 }

/-- End of the filter window, inclusive: one day after the first day of
the following month, that is its second day (main.py 197-199). -/
def filterEnd (y m : Nat) : Date :=
  let f := firstOfNextMonth y m
  { f with day := f.day + 1 }

/-- Keep test of the date-window filter for one transaction (main.py
206-262): a missing date or a string no format parses drops the
transaction; a parsed date is kept iff it lies in the inclusive window.
The model restricts dates to strings, the form they have in this
pipeline. -/
def txKept (y m : Nat) (t : Transaction) : Bool :=
  match t.date with
  | none => false
  | some s =>
      match parseFilterDate s with
      | none => false
      | some d => dateLe (filterStart y m) d && dateLe d (filterEnd y m)

/-- filter_transactions_by_date (main.py 189-268).  Constructing
datetime.date(target_year, target_month, 1) raises for an invalid year
or month, and start_date + relativedelta(months=1) raises for target
December 9999 (year 10000 exceeds datetime.MAXYEAR); in each case the
surrounding try block fails open and returns the original list
unfiltered. -/
def filter_transactions_by_date (txs : List Transaction)
    (targetYear targetMonth : Nat) : List Transaction :=
  if 1 ≤ targetYear && targetYear ≤ 9999 &&
      1 ≤ targetMonth && targetMonth ≤ 12 &&
      !(targetYear = 9999 && targetMonth = 12) then
    txs.filter (txKept targetYear targetMonth)
  else txs

/-! Sheet reconciliation engine (src/sheets_handler.py). -/

/-- Spreadsheet ROUND to zero decimal places: round half away from
zero. -/
def sheetsRound (x : ℚ) : ℤ :=
  if 0 ≤ x then ⌊x + 1 / 2⌋ else -⌊-x + 1 / 2⌋

/-- Party-A (Appu, column H) formula of the designated secondary-party
sheet (sheets_handler.py 698): IF split 0 then cost, IF 1 then cost
halved, IF 2 then 0, else 0.  F is the row cost, G the split flag. -/
def achuSheetAppuFormula (f : ℚ) (g : ℤ) : ℚ :=
  if g = 0 then f else if g = 1 then f / 2 else if g = 2 then 0 else 0

/-- Party-B (Achu, column I) formula of the secondary-party sheet
(sheets_handler.py 699). -/
def achuSheetAchuFormula (f : ℚ) (g : ℤ) : ℚ :=
  if g = 0 then 0 else if g = 1 then f / 2 else if g = 2 then f else 0

/-- Party-A formula of every other account sheet (sheets_handler.py
703): ROUND of IF split nonzero then is-expense times cost over split
else 0.  B is the is-expense cell. -/
def stdAppuFormula (b f : ℚ) (g : ℤ) : ℤ :=
  sheetsRound (if g ≠ 0 then b * f / (g : ℚ) else 0)

/-- Party-B formula of every other account sheet (sheets_handler.py
704). -/
def stdAchuFormula (b f : ℚ) (g : ℤ) : ℤ :=
  sheetsRound (if g ≠ 1 then (if g ≠ 0 then b * f / (g : ℚ) else b * f)
               else 0)

/-- Deletion loop of the sheet synchronization (sheets_handler.py
404-415): each name of the precomputed to-delete list is removed from
the evolving sheet set unless it is the lone remaining sheet named
Sheet1; deletions performed are counted. -/
def deleteLoop : List String → List String → Nat → List String × Nat
  | [], cur, n => (cur, n)
  | name :: rest, cur, n =>
      if cur.length = 1 && name = "Sheet1" then deleteLoop rest cur n
      else deleteLoop rest (cur.erase name) (n + 1)

/-- Deletion phase (sheets_handler.py 400-415): compute existing minus
target; skip the whole phase when there is at most one existing sheet
and something would be deleted. -/
def deletePhase (target existing : List String) : List String × Nat :=
  let toDelete := existing.filter (fun s => decide (s ∉ target))
  let canDelete := existing.length > 1 || toDelete.isEmpty
  if toDelete.isEmpty || !canDelete then (existing, 0)
  else deleteLoop toDelete existing 0

/-- Addition loop (sheets_handler.py 419-434): iterate the target list
in order; a name in the precomputed to-add set is realized either by
renaming a lone leftover Sheet1 (no create) or by creating a new
worksheet (one create). -/
def addLoop (toAdd : List String) :
    List String → List String → Nat → List String × Nat
  | [], cur, n => (cur, n)
  | name :: rest, cur, n =>
      if name ∈ toAdd then
        if "Sheet1" ∈ cur && cur.length = 1 then
          addLoop toAdd rest (cur.erase "Sheet1" ++ [name]) n
        else addLoop toAdd rest (cur ++ [name]) (n + 1)
      else addLoop toAdd rest cur n

/-- Addition phase (sheets_handler.py 418-434): the to-add set is
computed once, from the post-deletion sheet set. -/
def addPhase (target existing : List String) : List String × Nat :=
  let toAdd := target.filter (fun s => decide (s ∉ existing))
  addLoop toAdd target existing 0

/-- Reorder phase (sheets_handler.py 440-463): a stable sort putting
target sheets first in target order; sheets outside the target keep
their relative order at the end (sort key 999). -/
def reorderPhase (target cur : List String) : List String :=
  target.filter (fun s => decide (s ∈ cur)) ++
    cur.filter (fun s => decide (s ∉ target))

/-- Outcome of one reconciliation run: final sheet list and the counts
of delete and create operations performed. -/
structure SyncResult where
  sheets : List String
  deletes : Nat
  creates : Nat
  deriving DecidableEq

/-- The create/delete/rename/reorder synchronization of
update_google_sheet (sheets_handler.py 393-467) on an in-memory
document, as the target-vs-existing diff converger. -/
def syncSheets (target existing : List String) : SyncResult :=
  let d := deletePhase target existing
  let a := addPhase target d.1
  { sheets := reorderPhase target a.1, deletes := d.2, creates := a.2 }

/-- The fixed base of the target sheet list (sheets_handler.py
275-282): the two standard account sheets then the two structural
sheets, before the per-account names observed in the data. -/
def baseTargetSheets : List String :=
  ["Cash", "Achu", "Final Recon", "Reporting"]

/-! Theorems for the claims.  Helper lemmas come first. -/

/-- Round-trip of Category.from_string over the enum value for every
member other than BODY and HOUSE, which the synonym canonicalization
remaps. -/
theorem fromString_val_eq (c : Category) (h1 : c ≠ Category.BODY)
    (h2 : c ≠ Category.HOUSE) :
    Category.fromString (Category.val c) = c := by
  cases c <;> first
    | exact absurd rfl h1
    | exact absurd rfl h2
    | decide

/-- Claim C1 (counterexample): the formula variant written to the
non-secondary account sheets does not divide evenly on split flag 1:
with is-expense 1 and cost 100 it assigns 100 to party A and 0 to
party B, not 50 and 50. -/
theorem c1_counterexample :
    stdAppuFormula 1 100 1 = 100 ∧ stdAchuFormula 1 100 1 = 0 ∧
    ¬ (stdAppuFormula 1 100 1 = 50 ∧ stdAchuFormula 1 100 1 = 50) := by
  refine ⟨?_, ?_, ?_⟩ <;> norm_num [stdAppuFormula, stdAchuFormula,
    sheetsRound]

/-- Claim C1 (amended): the secondary-party sheet variant satisfies the
claimed split semantics (split 0 gives the full cost to party A, 1
divides evenly, 2 gives it all to party B); the variant for all other
sheets instead computes party A as ROUND of is-expense times cost over
the split flag (0 when the flag is 0) and party B as ROUND of
is-expense times cost when the flag is 0, 0 when it is 1, and ROUND of
is-expense times cost over the flag otherwise — for is-expense 1 this
yields shares 0 and cost at split 0, cost and 0 at split 1, and half
and half at split 2. -/
theorem c1_amended (f : ℚ) :
    achuSheetAppuFormula f 0 = f ∧ achuSheetAchuFormula f 0 = 0 ∧
    achuSheetAppuFormula f 1 = f / 2 ∧ achuSheetAchuFormula f 1 = f / 2 ∧
    achuSheetAppuFormula f 2 = 0 ∧ achuSheetAchuFormula f 2 = f ∧
    stdAppuFormula 1 f 0 = 0 ∧ stdAchuFormula 1 f 0 = sheetsRound f ∧
    stdAppuFormula 1 f 1 = sheetsRound f ∧ stdAchuFormula 1 f 1 = 0 ∧
    stdAppuFormula 1 f 2 = sheetsRound (f / 2) ∧
    stdAchuFormula 1 f 2 = sheetsRound (f / 2) := by
  refine ⟨?_, ?_, ?_, ?_, ?_, ?_, ?_, ?_, ?_, ?_, ?_, ?_⟩ <;>
    norm_num [achuSheetAppuFormula, achuSheetAchuFormula,
      stdAppuFormula, stdAchuFormula, sheetsRound]

/-- Claim C2 (counterexample): the category does not survive the
checkpoint round trip for every vocabulary member: a transaction
categorized Body is reloaded as Gym, because Category.from_string
canonicalizes BODY to GYM before matching. -/
theorem c2_counterexample :
    (loadCategorizedTx (saveTx
      { date := some "01/05/2024", description := "gym fee",
        amount := some 50, source_account := some "Cash",
        short_description := none, is_expense := some 1,
        is_split := some 0, category := some Category.BODY,
        transaction_type := TType.debit })).category =
      some Category.GYM ∧
    loadCategorizedTx (saveTx
      { date := some "01/05/2024", description := "gym fee",
        amount := some 50, source_account := some "Cash",
        short_description := none, is_expense := some 1,
        is_split := some 0, category := some Category.BODY,
        transaction_type := TType.debit }) ≠
      { date := some "01/05/2024", description := "gym fee",
        amount := some 50, source_account := some "Cash",
        short_description := none, is_expense := some 1,
        is_split := some 0, category := some Category.BODY,
        transaction_type := TType.debit } := by
  constructor
  · decide
  · intro h
    have := congrArg Transaction.category h
    revert this
    decide

/-- Claim C2 (amended): saving the post-categorization checkpoint and
reloading it reproduces every transaction exactly — description,
amount, category, is_expense and is_split included — for every
transaction whose category is not Body and not House; those two members
are remapped to Gym and Household by the string resolution. -/
theorem c2_amended (t : Transaction)
    (h1 : t.category ≠ some Category.BODY)
    (h2 : t.category ≠ some Category.HOUSE) :
    loadCategorizedTx (saveTx t) = t := by
  obtain ⟨dt, ds, am, sa, sd, ie, isp, cat, tt⟩ := t
  cases cat with
  | none => rfl
  | some c =>
    have h1c : c ≠ Category.BODY := fun h => h1 (by simp [h])
    have h2c : c ≠ Category.HOUSE := fun h => h2 (by simp [h])
    simp [saveTx, loadCategorizedTx, fromString_val_eq c h1c h2c]

/-- Claim C2 (witness). -/
theorem c2_witness :
    loadCategorizedTx (saveTx
      { date := some "02/05/2024", description := "supermarket",
        amount := some 75, source_account := some "HDFC Savings",
        short_description := none, is_expense := some 1,
        is_split := some 1, category := some Category.GROCERY,
        transaction_type := TType.debit }) =
      { date := some "02/05/2024", description := "supermarket",
        amount := some 75, source_account := some "HDFC Savings",
        short_description := none, is_expense := some 1,
        is_split := some 1, category := some Category.GROCERY,
        transaction_type := TType.debit } :=
  c2_amended _ (by decide) (by decide)

/-- Claim C3 (counterexample): the three enrichment failure causes do
not produce identical final states: on a freshly created transaction
(whose is_split defaults to 1) the not-configured cause leaves is_split
at 1 while the exception or malformed-response cause overwrites it to
0. -/
theorem c3_counterexample :
    (applyFailure FailCause.noAgent
      (newTransaction (some "01/05/2024") "store purchase" (some 10)
        TType.debit)).is_split = some 1 ∧
    (applyFailure FailCause.exceptionOrMalformed
      (newTransaction (some "01/05/2024") "store purchase" (some 10)
        TType.debit)).is_split = some 0 ∧
    applyFailure FailCause.noAgent
      (newTransaction (some "01/05/2024") "store purchase" (some 10)
        TType.debit) ≠
    applyFailure FailCause.exceptionOrMalformed
      (newTransaction (some "01/05/2024") "store purchase" (some 10)
        TType.debit) := by
  refine ⟨rfl, rfl, ?_⟩
  intro h
  have := congrArg Transaction.is_split h
  revert this
  decide

/-- Claim C3 (amended): on a classifier exception or a malformed
response every transaction is unconditionally overwritten with the
fallback category, is_expense 1 and is_split 0; the not-configured and
prompt-load-failure causes instead preserve already-set fields and only
default unset ones, so all three causes coincide exactly on
transactions whose category and is_expense are unset and whose
is_split is unset or 0. -/
theorem c3_amended (t : Transaction) (hc : t.category = none)
    (he : t.is_expense = none)
    (hs : t.is_split = none ∨ t.is_split = some 0) :
    (∀ u : Transaction, applyFailure FailCause.exceptionOrMalformed u =
      { u with category := some DEFAULT_CATEGORY_ENUM,
               is_expense := some 1, is_split := some 0 }) ∧
    applyFailure FailCause.noAgent t =
      applyFailure FailCause.exceptionOrMalformed t ∧
    applyFailure FailCause.promptError t =
      applyFailure FailCause.exceptionOrMalformed t := by
  refine ⟨fun u => rfl, ?_, ?_⟩ <;>
    rcases hs with hs | hs <;>
      simp [applyFailure, hc, he, hs]

/-- Claim C3 (witness). -/
theorem c3_witness :
    applyFailure FailCause.noAgent
      { date := none, description := "upi", amount := some 5,
        source_account := none, short_description := none,
        is_expense := none, is_split := some 0, category := none,
        transaction_type := TType.debit } =
    applyFailure FailCause.exceptionOrMalformed
      { date := none, description := "upi", amount := some 5,
        source_account := none, short_description := none,
        is_expense := none, is_split := some 0, category := none,
        transaction_type := TType.debit } :=
  (c3_amended _ rfl rfl (Or.inr rfl)).2.1

/-- Concrete enrichment batch of five raw transactions for the
index-matching scenario. -/
def c4Batch : List Transaction :=
  [newTransaction (some "01/05/2024") "alpha store" (some 10) TType.debit,
   newTransaction (some "02/05/2024") "bravo salary" (some 20) TType.credit,
   newTransaction (some "03/05/2024") "charlie mart" (some 30) TType.debit,
   newTransaction (some "04/05/2024") "delta fuel" (some 40) TType.debit,
   newTransaction (some "05/05/2024") "echo cafe" (some 50) TType.debit]

/-- Classifier response with three in-range results and one
out-of-range index for the five-transaction batch. -/
def c4Results : List AIResult :=
  [{ original_index := 0, category_str := "Food", is_expense := 1,
     is_split := 0 },
   { original_index := 1, category_str := "Income", is_expense := 0,
     is_split := 0 },
   { original_index := 2, category_str := "Grocery", is_expense := 1,
     is_split := 1 },
   { original_index := 10, category_str := "Rent", is_expense := 1,
     is_split := 0 }]

/-- Claim C4 (counterexample): in the five-transaction scenario with
three valid results and one out-of-range index, the two untouched
transactions end with the fallback category but keep their prior flags
(is_expense stays unset, is_split stays at its model default 1) —
they do not receive the fallback flags is_expense 1 and is_split 0. -/
theorem c4_counterexample :
    (enrichMatched c4Batch c4Results).map
        (fun t => (t.category, t.is_expense, t.is_split)) =
      [(some Category.FOOD, some 1, some 0),
       (some Category.INCOME, some 0, some 0),
       (some Category.GROCERY, some 1, some 1),
       (some Category.UNCATEGORIZED, none, some 1),
       (some Category.UNCATEGORIZED, none, some 1)] ∧
    ¬ ((enrichMatched c4Batch c4Results).map (fun t => t.is_expense) =
      [some 1, some 0, some 1, some 1, some 1]) := by
  constructor
  · decide
  · decide

/-- Claim C4 (amended): an in-range result overwrites exactly its
indexed transaction (category via string resolution, is_expense,
is_split) and leaves every other position unchanged; an out-of-range
index leaves the whole batch unchanged without failing; transactions
never touched by a result keep their prior flags, and the caller then
defaults only a still-unset category to the fallback — so in the
concrete five-transaction scenario the two untouched transactions end
with the fallback category, is_expense unset and is_split 1. -/
theorem c4_amended :
    (∀ (txs : List Transaction) (r : AIResult),
      r.original_index < 0 ∨ (txs.length : ℤ) ≤ r.original_index →
      applyOne txs r = txs) ∧
    (∀ (txs : List Transaction) (r : AIResult)
      (h0 : 0 ≤ r.original_index)
      (hlt : r.original_index.toNat < txs.length),
      (applyOne txs r)[r.original_index.toNat]? =
        some (updateTx (txs.get ⟨r.original_index.toNat, hlt⟩) r) ∧
      ∀ j : Nat, j ≠ r.original_index.toNat →
        (applyOne txs r)[j]? = txs[j]?) ∧
    (enrichMatched c4Batch c4Results).map
        (fun t => (t.category, t.is_expense, t.is_split)) =
      [(some Category.FOOD, some 1, some 0),
       (some Category.INCOME, some 0, some 0),
       (some Category.GROCERY, some 1, some 1),
       (some Category.UNCATEGORIZED, none, some 1),
       (some Category.UNCATEGORIZED, none, some 1)] := by
  refine ⟨?_, ?_, by decide⟩
  · intro txs r h
    rcases h with h | h
    · simp [applyOne, not_le.mpr h]
    · have h0 : 0 ≤ r.original_index := by
        have := Int.ofNat_nonneg txs.length
        omega
      have hge : txs.length ≤ r.original_index.toNat := by omega
      simp [applyOne, h0, List.getElem?_eq_none hge]
  · intro txs r h0 hlt
    have hsome : txs[r.original_index.toNat]? =
        some (txs.get ⟨r.original_index.toNat, hlt⟩) := by
      simp [List.getElem?_eq_getElem hlt]
    constructor
    · simp [applyOne, h0, hsome, List.getElem?_set_self
        (by simpa using hlt)]
    · intro j hj
      simp [applyOne, h0, hsome, List.getElem?_set_ne (Ne.symm hj)]

/-- Claim C4 (witness). -/
theorem c4_witness :
    applyOne c4Batch { original_index := 10, category_str := "Rent",
                       is_expense := 1, is_split := 0 } = c4Batch ∧
    (applyOne c4Batch { original_index := 0, category_str := "Food",
                        is_expense := 1, is_split := 0 })[0]? =
      some (updateTx (c4Batch.get ⟨0, by decide⟩)
        { original_index := 0, category_str := "Food", is_expense := 1,
          is_split := 0 }) ∧
    (applyOne c4Batch { original_index := 0, category_str := "Food",
                        is_expense := 1, is_split := 0 })[4]? = c4Batch[4]? := by
  refine ⟨?_, ?_, ?_⟩
  · exact c4_amended.1 c4Batch _ (Or.inr (by decide))
  · exact (c4_amended.2.1 c4Batch _ (by decide) (by decide)).1
  · exact (c4_amended.2.1 c4Batch _ (by decide) (by decide)).2 4
      (by decide)

/-- A successful entry makes findSome? succeed. -/
theorem findSome_isSome_of_mem {α β : Type} (f : α → Option β)
    (l : List α) (a : α) (ha : a ∈ l) (hf : (f a).isSome = true) :
    (l.findSome? f).isSome = true := by
  induction l with
  | nil => cases ha
  | cons x xs ih =>
      rw [List.findSome?_cons]
      cases hx : f x with
      | some b => rfl
      | none =>
          rcases List.mem_cons.mp ha with h | h
          · subst h
            rw [hx] at hf
            cases hf
          · exact ih h

/-- Claim C5 (counterexample): the two multi-format date parsers are
not the same: the ISO form 2024-05-01 is accepted by the date-window
filter parser but rejected by the sheet-writing parser, which then
writes the empty string. -/
theorem c5_counterexample :
    (parseFilterDate "2024-05-01").isSome = true ∧
    parseWithFormats sheetFormats "2024-05-01" = none ∧
    parse_date_flexible (some "2024-05-01") = "" := by
  refine ⟨?_, ?_, ?_⟩ <;> decide

/-- Claim C5 (amended): the sheet-writing parser tries only three
formats, a strict subset of the six the date-window filter tries, so
every date string the sheet writer parses the filter parses as well
(but not conversely, the ISO form being a filter-only format); a string
no sheet format parses is written as the empty string rather than
failing the row. -/
theorem c5_amended (s : String) :
    ((parseWithFormats sheetFormats s).isSome = true →
      (parseFilterDate s).isSome = true) ∧
    (parseWithFormats sheetFormats s = none →
      parse_date_flexible (some s) = "") := by
  constructor
  · intro h
    unfold parseWithFormats at h
    have h3 : (strptimeDate fmtDmy s).isSome = true ∨
        (strptimeDate fmtDby s).isSome = true ∨
        (strptimeDate fmtDmyHms s).isSome = true := by
      simp only [sheetFormats, List.findSome?_cons] at h
      cases h1 : strptimeDate fmtDmy s with
      | some d => exact Or.inl (by simp [h1])
      | none =>
          rw [h1] at h
          cases h2 : strptimeDate fmtDby s with
          | some d => exact Or.inr (Or.inl (by simp [h2]))
          | none =>
              rw [h2] at h
              cases h4 : strptimeDate fmtDmyHms s with
              | some d => exact Or.inr (Or.inr (by simp [h4]))
              | none => rw [h4] at h; cases h
    unfold parseFilterDate parseWithFormats
    rcases h3 with h3 | h3 | h3
    · exact findSome_isSome_of_mem _ filterFormats fmtDmy (by
        simp [filterFormats]) h3
    · exact findSome_isSome_of_mem _ filterFormats fmtDby (by
        simp [filterFormats]) h3
    · exact findSome_isSome_of_mem _ filterFormats fmtDmyHms (by
        simp [filterFormats]) h3
  · intro h
    unfold parse_date_flexible
    by_cases he : s = "" <;> simp [he, h]

/-- Claim C5 (witness). -/
theorem c5_witness :
    (parseFilterDate "15/05/2024").isSome = true ∧
    parse_date_flexible (some "garbage") = "" :=
  ⟨(c5_amended "15/05/2024").1 (by decide),
   (c5_amended "garbage").2 (by decide)⟩

/-- Claim C6 (counterexample): is_split is not unset on a freshly
created transaction (the model default is 1), and the extraction stage
does populate it, setting 2 when the description contains the
secondary-party token. -/
theorem c6_counterexample :
    (newTransaction (some "01/05/2024") "upi payment to Achu" (some 20)
      TType.debit).is_split = some 1 ∧
    (newTransaction (some "01/05/2024") "upi payment to Achu" (some 20)
      TType.debit).is_split ≠ none ∧
    (extractionAssign "HDFC Savings"
      (newTransaction (some "01/05/2024") "upi payment to Achu" (some 20)
        TType.debit)).is_split = some 2 := by
  refine ⟨rfl, ?_, ?_⟩ <;> decide

/-- Claim C6 (amended): short_description, category and is_expense are
unset on a freshly created transaction and the extraction stage leaves
all three unset; is_split however starts at the model default 1, and
extraction overwrites it to 2 exactly when the lowercased description
contains the token achu, leaving it unchanged otherwise. -/
theorem c6_amended (date : Option String) (desc : String)
    (amt : Option ℚ) (ty : TType) (acct : String) (t : Transaction) :
    (newTransaction date desc amt ty).short_description = none ∧
    (newTransaction date desc amt ty).category = none ∧
    (newTransaction date desc amt ty).is_expense = none ∧
    (newTransaction date desc amt ty).is_split = some 1 ∧
    (extractionAssign acct t).short_description = t.short_description ∧
    (extractionAssign acct t).category = t.category ∧
    (extractionAssign acct t).is_expense = t.is_expense ∧
    (extractionAssign acct t).source_account = some acct ∧
    (extractionAssign acct t).is_split =
      (if containsAchu t.description then some 2 else t.is_split) := by
  refine ⟨rfl, rfl, rfl, rfl, ?_, ?_, ?_, ?_, ?_⟩ <;>
    by_cases h : containsAchu t.description <;>
      simp [extractionAssign, h]

/-- Claim C7: a readable, non-empty post-categorization checkpoint
takes priority over the extraction checkpoint regardless of the
latter's state: extraction and enrichment are both skipped and the run
proceeds to sheet writing with exactly the deserialized records. -/
theorem c7_resume_precedence (items : List SavedTx)
    (procFile : FileState) (h : items ≠ []) :
    resolveResume (FileState.content items) procFile =
      { runExtraction := false, runEnrichment := false,
        resumedRecords := some (items.map loadCategorizedTx) } := by
  unfold resolveResume resumeFromCategorized
  have : items.isEmpty = false := by
    cases items with
    | nil => exact absurd rfl h
    | cons a l => rfl
  simp [this]

/-- Claim C7 (witness): with both checkpoint files present and
non-empty, the categorized one wins. -/
theorem c7_witness :
    resolveResume
      (FileState.content
        [{ date := some "01/05/2024",
           description := "alpha store", amount := some 10,
           source_account := some "Cash", short_description := none,
           is_expense := some 1, is_split := some 0,
           category := some "Food", transaction_type := TType.debit }])
      (FileState.content
        [{ date := some "02/05/2024",
           description := "bravo mart", amount := some 20,
           source_account := some "Cash", short_description := none,
           is_expense := none, is_split := some 1, category := none,
           transaction_type := TType.debit }]) =
      { runExtraction := false, runEnrichment := false,
        resumedRecords := some
          ([{ date := some "01/05/2024", description := "alpha store",
              amount := some 10, source_account := some "Cash",
              short_description := none, is_expense := some 1,
              is_split := some 0, category := some "Food",
              transaction_type := TType.debit }].map
            loadCategorizedTx) } :=
  c7_resume_precedence _ _ (by simp)

/-- The addition loop performs nothing when the to-add set is empty. -/
theorem addLoop_empty (names cur : List String) (n : Nat) :
    addLoop [] names cur n = (cur, n) := by
  induction names generalizing cur n with
  | nil => rfl
  | cons a rest ih => simp [addLoop, ih]

/-- Claim C8 (counterexample): reconciliation is not idempotent for
every document state: a document whose only sheet is outside the target
list (and not named Sheet1) keeps it on the first run because the
last-sheet guard skips the deletion, and the second run then performs
one more delete. -/
theorem c8_counterexample :
    (syncSheets baseTargetSheets ["Old Statement"]).deletes = 0 ∧
    (syncSheets baseTargetSheets ["Old Statement"]).creates = 4 ∧
    (syncSheets baseTargetSheets
      (syncSheets baseTargetSheets ["Old Statement"]).sheets).deletes
      = 1 := by
  refine ⟨?_, ?_, ?_⟩ <;> decide

/-- Claim C8 (amended): reconciliation performs zero create and delete
operations from any document whose sheet-name set already equals the
target set — in particular immediately after a first run that
converged; a first run does not always converge: with a single
non-target sheet not named Sheet1 the last-sheet guard leaves it in
place and the second run deletes it. -/
theorem c8_amended (target existing : List String)
    (h : ∀ s, s ∈ existing ↔ s ∈ target) :
    (syncSheets target existing).deletes = 0 ∧
    (syncSheets target existing).creates = 0 := by
  have hdel : existing.filter (fun s => decide (s ∉ target)) = [] :=
    List.filter_eq_nil_iff.mpr (fun a ha => by simp [(h a).mp ha])
  have hadd : target.filter (fun s => decide (s ∉ existing)) = [] :=
    List.filter_eq_nil_iff.mpr (fun a ha => by simp [(h a).mpr ha])
  have h1 : deletePhase target existing = (existing, 0) := by
    unfold deletePhase
    rw [hdel]
    simp
  have h2 : addPhase target existing = (existing, 0) := by
    unfold addPhase
    rw [hadd]
    exact addLoop_empty target existing 0
  simp [syncSheets, h1, h2]

/-- Claim C8 (witness). -/
theorem c8_witness :
    (syncSheets baseTargetSheets baseTargetSheets).deletes = 0 ∧
    (syncSheets baseTargetSheets baseTargetSheets).creates = 0 :=
  c8_amended baseTargetSheets baseTargetSheets (fun s => Iff.rfl)

/-- Claim C9: the sign written to an account sheet is derived from
transaction_type through an absolute value, so it is never
double-applied: a debit of magnitude m is written as plus m and a
credit of magnitude m as minus m, whether the stored amount carried the
sign already or not. -/
theorem c9_sign_from_type (m : ℚ) (h : 0 ≤ m) :
    signedAmount (some m) TType.debit = some m ∧
    signedAmount (some (-m)) TType.debit = some m ∧
    signedAmount (some m) TType.credit = some (-m) ∧
    signedAmount (some (-m)) TType.credit = some (-m) := by
  simp [signedAmount, abs_of_nonneg h]

/-- Claim C9 (witness): a debit of magnitude 120 is written as plus 120
and a credit of magnitude 120 as minus 120. -/
theorem c9_witness :
    signedAmount (some 120) TType.debit = some 120 ∧
    signedAmount (some (-120)) TType.debit = some 120 ∧
    signedAmount (some 120) TType.credit = some (-120) ∧
    signedAmount (some (-120)) TType.credit = some (-120) :=
  c9_sign_from_type 120 (by norm_num)

/-- Claim C10: for a target year and month for which the window is
constructible (valid month, year at most 9999, and not December 9999,
where the source's end-of-window computation overflows datetime.MAXYEAR
and the filter fails open), the date-window filter keeps a transaction
whose date string parses if and only if the parsed date lies in the
inclusive range from the first day of the target month to the second
day of the following month. -/
theorem c10_date_window (txs : List Transaction) (y m : Nat)
    (t : Transaction) (s : String) (d : Date)
    (hy1 : 1 ≤ y) (hy2 : y ≤ 9999) (hm1 : 1 ≤ m) (hm2 : m ≤ 12)
    (hnm : ¬(y = 9999 ∧ m = 12))
    (hs : t.date = some s) (hd : parseFilterDate s = some d) :
    (t ∈ filter_transactions_by_date txs y m ↔
      t ∈ txs ∧ dateLe (filterStart y m) d = true ∧
        dateLe d (filterEnd y m) = true) ∧
    filterEnd y m =
      { year := if m = 12 then y + 1 else y,
        month := if m = 12 then 1 else m + 1, day := 2 } := by
  constructor
  · have h9 : (decide (y = 9999) && decide (m = 12)) = false := by
      rcases eq_or_ne y 9999 with hy | hy
      · have hm12 : m ≠ 12 := fun hm => hnm ⟨hy, hm⟩
        simp [hm12]
      · simp [hy]
    have hvalid : (decide (1 ≤ y) && decide (y ≤ 9999) &&
        decide (1 ≤ m) && decide (m ≤ 12) &&
        !(decide (y = 9999) && decide (m = 12))) = true := by
      simp [hy1, hy2, hm1, hm2, h9]
    unfold filter_transactions_by_date
    rw [if_pos hvalid, List.mem_filter]
    simp [txKept, hs, hd, Bool.and_eq_true]
  · unfold filterEnd firstOfNextMonth
    by_cases hm : m = 12 <;> simp [hm]

/-- Claim C10 (witness): for target month May 2024, a transaction dated
the first day of the month is kept, one dated the second day of June is
kept, and one dated the third day of June is dropped. -/
theorem c10_witness :
    newTransaction (some "01/05/2024") "first day" none TType.debit ∈
      filter_transactions_by_date
        [newTransaction (some "01/05/2024") "first day" none TType.debit,
         newTransaction (some "02/06/2024") "grace day" none TType.debit,
         newTransaction (some "03/06/2024") "late day" none TType.debit]
        2024 5 ∧
    newTransaction (some "02/06/2024") "grace day" none TType.debit ∈
      filter_transactions_by_date
        [newTransaction (some "01/05/2024") "first day" none TType.debit,
         newTransaction (some "02/06/2024") "grace day" none TType.debit,
         newTransaction (some "03/06/2024") "late day" none TType.debit]
        2024 5 ∧
    newTransaction (some "03/06/2024") "late day" none TType.debit ∉
      filter_transactions_by_date
        [newTransaction (some "01/05/2024") "first day" none TType.debit,
         newTransaction (some "02/06/2024") "grace day" none TType.debit,
         newTransaction (some "03/06/2024") "late day" none TType.debit]
        2024 5 := by
  refine ⟨?_, ?_, ?_⟩
  · exact ((c10_date_window _ 2024 5 _ "01/05/2024"
      { year := 2024, month := 5, day := 1 } (by norm_num) (by norm_num)
      (by norm_num) (by norm_num) (by decide) rfl (by decide)).1).mpr
      ⟨by decide, by decide, by decide⟩
  · exact ((c10_date_window _ 2024 5 _ "02/06/2024"
      { year := 2024, month := 6, day := 2 } (by norm_num) (by norm_num)
      (by norm_num) (by norm_num) (by decide) rfl (by decide)).1).mpr
      ⟨by decide, by decide, by decide⟩
  · intro hmem
    have hw := ((c10_date_window _ 2024 5 _ "03/06/2024"
      { year := 2024, month := 6, day := 3 } (by norm_num) (by norm_num)
      (by norm_num) (by norm_num) (by decide) rfl (by decide)).1).mp hmem
    exact absurd hw.2.2 (by decide)
